import Mathlib

/-!
Shallow embedding of `src/03.cpp`: a chain-of-responsibility logger with
command-style log sinks.

Modelling conventions:
* A sink print call is recorded as a pair `(sink, text)`; a message's
  `message()` body is embedded as the list of print calls it performs
  together with an `Except String String` result (`.error e` models a
  thrown `std::runtime_error(e)`, `.ok s` models a returned string).
* A `LogHandler` link holds the severity its `handleLog` accepts and an
  optional successor (the `next` unique_ptr, `none` for null).
* `receiveLog` threads print calls and propagates exceptions exactly as
  the C++ control flow does.
* The driver (`main`) is embedded as `routeList` / `runDriver`: all
  routing calls sit inside one try block, the catch handler prints the
  exception text to standard output, and the exit code is 0.
-/

set_option autoImplicit false

/-- The enum `LogMessage::Type` from the source (named `LogType` because `Type`
is reserved in Lean). -/
inductive LogType where
  | tWarning
  | tError
  | tFatalError
  | tUnknownMessage
deriving DecidableEq, Repr

/-- The two sink instances built in `main`: `ConsoleLog cl` and
`FileLog fl`. -/
inductive SinkId where
  | console
  | file
deriving DecidableEq, Repr

/-- The four `LogMessage` variants. `warning` and `error` carry the sink
(`LogCommand*`) they were constructed with; the two terminal variants
hold no sink, exactly as in the source. `σ` is the type of sink
references. -/
inductive LogMessage (σ : Type) where
  | warning (sink : σ)
  | error (sink : σ)
  | fatalError
  | unknownMessage
deriving DecidableEq

/-- Severity `type()` of each message variant. -/
def LogMessage.type {σ : Type} : LogMessage σ → LogType
  | .warning _ => .tWarning
  | .error _ => .tError
  | .fatalError => .tFatalError
  | .unknownMessage => .tUnknownMessage

/-- Body of `message()` for each variant: the print calls it performs on its sink
and its outcome. `WarningLogMessage::message` prints "warning" and
returns "warning"; `ErrorLogMessage::message` prints "Error" and returns
"Error"; the fatal and unknown variants throw without printing. -/
def LogMessage.message {σ : Type} : LogMessage σ → List (σ × String) × Except String String
  | .warning s => ([(s, "warning")], .ok "warning")
  | .error s => ([(s, "Error")], .ok "Error")
  | .fatalError => ([], .error "FatalError!")
  | .unknownMessage => ([], .error "UnknownMessage!")

/-- A handler link: its accepted severity and its `next` pointer
(`none` = null). Each concrete handler class differs only in the
severity its `handleLog` tests, so the bound severity is data here. -/
inductive LogHandler where
  | link (bound : LogType) (next : Option LogHandler)

/-- Method `handleLog` of the concrete handler bound to severity `bound`:
on a type mismatch return `false` without side effects; on a match call
`logmsg.message()` (its print calls happen, its exception propagates,
its returned string is discarded) and return `true`. -/
def handleLog {σ : Type} (bound : LogType) (logmsg : LogMessage σ) :
    List (σ × String) × Except String Bool :=
  if logmsg.type ≠ bound then ([], .ok false)
  else (logmsg.message.1, logmsg.message.2.map fun _ => true)

/-- Text of the exception thrown by `LogHandler::receiveLog` when no
handler matched. -/
def unhandledText : String := "Error: Log message should be handled!"

/-- Method `LogHandler::receiveLog`: run this link's `handleLog`; if it threw,
propagate; if it returned `true`, stop; otherwise delegate to `next`,
or throw the unhandled-message error when `next` is null. -/
def receiveLog {σ : Type} (logmsg : LogMessage σ) :
    LogHandler → List (σ × String) × Except String Unit
  | .link bound next =>
    match handleLog bound logmsg with
    | (ps, .error e) => (ps, .error e)
    | (ps, .ok true) => (ps, .ok ())
    | (ps, .ok false) =>
      match next with
      | none => (ps, .error unhandledText)
      | some nh =>
        let r := receiveLog logmsg nh
        (ps ++ r.1, r.2)

/-- Variant of `receiveLog` instrumented with the list of links whose `handleLog`
was consulted (recorded by their bound severities, outermost first). -/
def receiveLogVisited {σ : Type} (logmsg : LogMessage σ) :
    LogHandler → List LogType × (List (σ × String) × Except String Unit)
  | .link bound next =>
    match handleLog bound logmsg with
    | (ps, .error e) => ([bound], (ps, .error e))
    | (ps, .ok true) => ([bound], (ps, .ok ()))
    | (ps, .ok false) =>
      match next with
      | none => ([bound], (ps, .error unhandledText))
      | some nh =>
        let r := receiveLogVisited logmsg nh
        (bound :: r.1, (ps ++ r.2.1, r.2.2))

/-- The severities bound along a chain, outermost first. -/
def LogHandler.bounds : LogHandler → List LogType
  | .link bound none => [bound]
  | .link bound (some nh) => bound :: nh.bounds

/-- Number of links in a chain. -/
def LogHandler.size : LogHandler → Nat
  | .link _ none => 1
  | .link _ (some nh) => nh.size + 1

/-- Method `ConsoleLog::print`: append the message as one line to the bound
output stream (modelled as the list of lines written so far). It never
fails. -/
def ConsoleLog.print (message : String) (stream : List String) : List String :=
  stream ++ [message]

/-- Method `FileLog::print`: attempt to open the target path in append mode
(`openOk` records whether the open succeeds); if open, append the
message as one line, otherwise do nothing. The `Except` result shows
that the call never raises: both branches return `.ok`. -/
def FileLog.print (openOk : Bool) (message : String) (stream : List String) :
    Except String (List String) :=
  if openOk then
    .ok (stream ++ [message])
  else
    .ok stream

/-- Program state threaded through the driver: the handler chain, whether
opening the file sink's path succeeds, and the lines so far written to
the console sink and to the file sink. -/
structure World where
  chain : LogHandler
  fileOpenOk : Bool
  consoleLines : List String
  fileLines : List String

/-- Deliver one recorded print call to the corresponding sink object
(`ConsoleLog::print` or `FileLog::print`). -/
def applyPrint (fileOpenOk : Bool) (st : List String × List String) :
    SinkId × String → List String × List String
  | (.console, m) => (ConsoleLog.print m st.1, st.2)
  | (.file, m) =>
    match FileLog.print fileOpenOk m st.2 with
    | .ok fs => (st.1, fs)
    | .error _ => (st.1, st.2)

/-- One routing call `chain->receiveLog(msg)` as a state transformer:
the print calls are delivered to the sinks in order, and the outcome
(`ok` or thrown exception) is returned alongside the new state. -/
def routeOne (w : World) (msg : LogMessage SinkId) : World × Except String Unit :=
  let r := receiveLog msg w.chain
  let sinks := r.1.foldl (applyPrint w.fileOpenOk) (w.consoleLines, w.fileLines)
  (⟨w.chain, w.fileOpenOk, sinks.1, sinks.2⟩, r.2)

/-- The body of `main`'s try block, generalized over the message list:
route the messages in order; the first thrown exception aborts the
remaining calls and is returned as the caught exception text. -/
def routeList (w : World) : List (LogMessage SinkId) → World × Option String
  | [] => (w, none)
  | m :: rest =>
    match routeOne w m with
    | (w2, .error e) => (w2, some e)
    | (w2, .ok _) => routeList w2 rest

/-- The chain built in `main`, outermost first:
UnknownMessage → FatalError → Error → Warning → null. -/
def mainChain : LogHandler :=
  .link .tUnknownMessage (some
    (.link .tFatalError (some
      (.link .tError (some
        (.link .tWarning none))))))

/-- The three messages `main` routes, in order: a warning bound to the
console sink, an error bound to the file sink, and an unknown message. -/
def mainMessages : List (LogMessage SinkId) :=
  [.warning .console, .error .file, .unknownMessage]

/-- Observable outcome of a driver run: the console sink's lines, the
file sink's lines, the lines the catch handler printed to standard
output, and the process exit code. -/
structure RunResult where
  consoleLines : List String
  fileLines : List String
  driverOut : List String
  exitCode : Nat
deriving DecidableEq, Repr

/-- The driver `main` generalized over the message list: start with empty sinks,
run the try block, print the caught exception text (if any) to standard
output, return 0. -/
def runDriver (fileOpenOk : Bool) (msgs : List (LogMessage SinkId)) : RunResult :=
  let r := routeList ⟨mainChain, fileOpenOk, [], []⟩ msgs
  ⟨r.1.consoleLines, r.1.fileLines,
    match r.2 with
    | some e => [e]
    | none => [], 0⟩

/-- The actual `main`: the driver on the three hard-coded messages. -/
def mainRun (fileOpenOk : Bool) : RunResult :=
  runDriver fileOpenOk mainMessages

/-- Fuel-indexed `receiveLog`: each delegation to the successor consumes
one unit of fuel; `none` means the fuel ran out before routing ended. -/
def receiveLogFuel {σ : Type} : Nat → LogMessage σ →
    LogHandler → Option (List (σ × String) × Except String Unit)
  | 0, _, _ => none
  | fuel + 1, logmsg, .link bound next =>
    match handleLog bound logmsg with
    | (ps, .error e) => some (ps, .error e)
    | (ps, .ok true) => some (ps, .ok ())
    | (ps, .ok false) =>
      match next with
      | none => some (ps, .error unhandledText)
      | some nh =>
        match receiveLogFuel fuel logmsg nh with
        | none => none
        | some r => some (ps ++ r.1, r.2)

/-- Helper: one unfolding of `receiveLog` at a link, split on whether the
message's severity matches the link's bound severity. -/
theorem receiveLog_link (σ : Type) (bound : LogType) (next : Option LogHandler)
    (msg : LogMessage σ) :
    receiveLog msg (.link bound next) =
      if msg.type = bound then
        (msg.message.1, Except.map (fun _ => ()) msg.message.2)
      else
        match next with
        | some nh => receiveLog msg nh
        | none => ([], .error unhandledText) := by
  by_cases h : msg.type = bound <;>
    cases next <;>
      cases msg <;>
        simp_all [receiveLog, handleLog, LogMessage.type, LogMessage.message, Except.map]

/-- C1: `receiveLog` is a three-step dispatch. On a severity match it
performs exactly the message's `emit()` (its print calls and its normal
or thrown outcome) and never consults the successor; on a mismatch it
delegates to the successor when one exists; on a mismatch with no
successor it throws the unhandled-message error. -/
theorem receiveLog_three_step_dispatch (σ : Type) (bound : LogType)
    (next : Option LogHandler) (msg : LogMessage σ) :
    (msg.type = bound →
      receiveLog msg (.link bound next) =
        (msg.message.1, Except.map (fun _ => ()) msg.message.2)) ∧
    (msg.type ≠ bound → ∀ nh : LogHandler, next = some nh →
      receiveLog msg (.link bound next) = receiveLog msg nh) ∧
    (msg.type ≠ bound → next = none →
      receiveLog msg (.link bound next) = ([], .error unhandledText)) := by
  refine ⟨fun h => ?_, fun h nh hn => ?_, fun h hn => ?_⟩
  · rw [receiveLog_link, if_pos h]
  · rw [receiveLog_link, if_neg h, hn]
  · rw [receiveLog_link, if_neg h, hn]

theorem receiveLog_three_step_dispatch_witness :
    receiveLog (LogMessage.warning SinkId.console) (.link .tWarning none) =
        ([(SinkId.console, "warning")], .ok ())
    ∧ receiveLog (LogMessage.error SinkId.file)
        (.link .tWarning (some (.link .tError none))) =
        receiveLog (LogMessage.error SinkId.file) (.link .tError none)
    ∧ receiveLog (LogMessage.fatalError : LogMessage SinkId) (.link .tWarning none) =
        ([], .error unhandledText) :=
  ⟨(receiveLog_three_step_dispatch SinkId .tWarning none
      (LogMessage.warning SinkId.console)).1 rfl,
   (receiveLog_three_step_dispatch SinkId .tWarning (some (.link .tError none))
      (LogMessage.error SinkId.file)).2.1 (by decide) _ rfl,
   (receiveLog_three_step_dispatch SinkId .tWarning none
      (LogMessage.fatalError : LogMessage SinkId)).2.2 (by decide) rfl⟩

/-- C2: the concrete driver scenario. With the chain
Unknown→Fatal→Error→Warning and the messages Warning(console),
Error(file), UnknownMessage routed in order (and the file path
openable), the console sink receives exactly the line "warning", the
file sink exactly the line "Error", the driver catches the third call's
failure and prints "UnknownMessage!" to standard output, and the
process exits normally with code 0. -/
theorem mainRun_concrete_scenario :
    mainRun true = ⟨["warning"], ["Error"], ["UnknownMessage!"], 0⟩ := by decide

/-- C5: a Warning message routed through the assembled chain performs
exactly one write, of the literal "warning", to its bound sink, and its
`message()` returns "warning"; an Error message likewise performs
exactly one write of "Error" and returns "Error". -/
theorem warning_error_single_write (σ : Type) (s t : σ) :
    LogMessage.message (LogMessage.warning s) = ([(s, "warning")], .ok "warning")
    ∧ receiveLog (LogMessage.warning s) mainChain = ([(s, "warning")], .ok ())
    ∧ LogMessage.message (LogMessage.error t) = ([(t, "Error")], .ok "Error")
    ∧ receiveLog (LogMessage.error t) mainChain = ([(t, "Error")], .ok ()) :=
  ⟨rfl, rfl, rfl, rfl⟩

/-- C6: the FatalError and UnknownMessage variants' `message()` always
throws, with texts "FatalError!" and "UnknownMessage!" respectively,
performing no sink write; and at whatever link of a chain such a
message matches, `receiveLog` propagates exactly that failure,
whatever the successor is. -/
theorem fatal_unknown_always_fail (σ : Type) (bound : LogType)
    (next : Option LogHandler) :
    LogMessage.message (LogMessage.fatalError : LogMessage σ) = ([], .error "FatalError!")
    ∧ LogMessage.message (LogMessage.unknownMessage : LogMessage σ) =
        ([], .error "UnknownMessage!")
    ∧ (bound = .tFatalError →
        receiveLog (LogMessage.fatalError : LogMessage σ) (.link bound next) =
          ([], .error "FatalError!"))
    ∧ (bound = .tUnknownMessage →
        receiveLog (LogMessage.unknownMessage : LogMessage σ) (.link bound next) =
          ([], .error "UnknownMessage!")) := by
  refine ⟨rfl, rfl, fun h => ?_, fun h => ?_⟩ <;> subst h <;> rfl

theorem fatal_unknown_always_fail_witness :
    receiveLog (LogMessage.fatalError : LogMessage SinkId) (.link .tFatalError none) =
        ([], .error "FatalError!")
    ∧ receiveLog (LogMessage.unknownMessage : LogMessage SinkId)
        (.link .tUnknownMessage (some mainChain)) = ([], .error "UnknownMessage!") :=
  ⟨(fatal_unknown_always_fail SinkId .tFatalError none).2.2.1 rfl,
   (fatal_unknown_always_fail SinkId .tUnknownMessage (some mainChain)).2.2.2 rfl⟩

/-- C8: a file-sink write whose open fails raises nothing and writes
nothing (the stream is unchanged); moreover `FileLog::print` never
raises for any open outcome. -/
theorem fileLog_print_open_failure (message : String) (stream : List String) :
    FileLog.print false message stream = .ok stream
    ∧ ∀ openOk : Bool, ∃ stream2, FileLog.print openOk message stream = .ok stream2 := by
  refine ⟨rfl, fun openOk => ?_⟩
  cases openOk
  · exact ⟨stream, rfl⟩
  · exact ⟨stream ++ [message], rfl⟩

/-- C4: for each of the four severities, a message routed into the
assembled chain is consulted by exactly the links from the outermost
down to the unique handler bound to that severity; the consuming link
is the last one consulted, bound to the message's severity, and it is
the only consulted link bound to it. A Warning message is consulted by
all 4 links (3 forwards before the match), an UnknownMessage only by
the outermost (no forwards). -/
theorem chain_routes_to_unique_handler (s t : SinkId) :
    (receiveLogVisited (LogMessage.warning s) mainChain).1 =
        [.tUnknownMessage, .tFatalError, .tError, .tWarning]
    ∧ (receiveLogVisited (LogMessage.error t) mainChain).1 =
        [.tUnknownMessage, .tFatalError, .tError]
    ∧ (receiveLogVisited (LogMessage.fatalError : LogMessage SinkId) mainChain).1 =
        [.tUnknownMessage, .tFatalError]
    ∧ (receiveLogVisited (LogMessage.unknownMessage : LogMessage SinkId) mainChain).1 =
        [.tUnknownMessage]
    ∧ (∀ msg : LogMessage SinkId,
        (receiveLogVisited msg mainChain).1.getLast? = some msg.type
        ∧ (receiveLogVisited msg mainChain).1.count msg.type = 1
        ∧ (receiveLogVisited msg mainChain).2 = receiveLog msg mainChain) := by
  refine ⟨?_, ?_, rfl, rfl, ?_⟩
  · cases s <;> rfl
  · cases t <;> rfl
  · intro msg
    cases msg with
    | warning s2 => cases s2 <;> exact ⟨rfl, rfl, rfl⟩
    | error s2 => cases s2 <;> exact ⟨rfl, rfl, rfl⟩
    | fatalError => exact ⟨rfl, rfl, rfl⟩
    | unknownMessage => exact ⟨rfl, rfl, rfl⟩

/-- Helper: when a message's severity is bound by no link of a chain,
`receiveLog` performs no print call and throws the unhandled error. -/
theorem receiveLog_unmatched {σ : Type} : ∀ (h : LogHandler) (msg : LogMessage σ),
    msg.type ∉ h.bounds → receiveLog msg h = ([], .error unhandledText)
  | .link bound none, msg, hnb => by
    have hne : msg.type ≠ bound := by simpa [LogHandler.bounds] using hnb
    rw [receiveLog_link, if_neg hne]
  | .link bound (some nh), msg, hnb => by
    have hne : msg.type ≠ bound := by
      simp only [LogHandler.bounds, List.mem_cons, not_or] at hnb
      exact hnb.1
    have hnb2 : msg.type ∉ nh.bounds := by
      simp only [LogHandler.bounds, List.mem_cons, not_or] at hnb
      exact hnb.2
    rw [receiveLog_link, if_neg hne]
    exact receiveLog_unmatched nh msg hnb2

/-- C7: routing a message whose severity matches no link fails with the
unhandled-message error and performs no sink write; at the state level,
such a routing call returns the world exactly as it was. -/
theorem unmatched_severity_no_write (σ : Type) (h : LogHandler) (msg : LogMessage σ)
    (w : World) (msg2 : LogMessage SinkId)
    (hm : msg.type ∉ h.bounds) (hm2 : msg2.type ∉ w.chain.bounds) :
    receiveLog msg h = ([], .error unhandledText)
    ∧ routeOne w msg2 = (w, .error unhandledText) := by
  refine ⟨receiveLog_unmatched h msg hm, ?_⟩
  have h2 := receiveLog_unmatched w.chain msg2 hm2
  simp [routeOne, h2]

theorem unmatched_severity_no_write_witness :
    receiveLog (LogMessage.error SinkId.file) (.link .tWarning none) =
        ([], .error unhandledText)
    ∧ routeOne ⟨.link .tWarning none, true, ["old"], []⟩
        (LogMessage.fatalError : LogMessage SinkId) =
        (⟨.link .tWarning none, true, ["old"], []⟩, .error unhandledText) :=
  unmatched_severity_no_write SinkId (.link .tWarning none)
    (LogMessage.error SinkId.file) ⟨.link .tWarning none, true, ["old"], []⟩
    (LogMessage.fatalError : LogMessage SinkId) (by decide) (by decide)

/-- Helper: `size h` units of fuel always suffice for the fuel-indexed
routing to finish with the same outcome as `receiveLog`. -/
theorem receiveLogFuel_eq {σ : Type} : ∀ (h : LogHandler) (fuel : Nat)
    (msg : LogMessage σ), h.size ≤ fuel →
    receiveLogFuel fuel msg h = some (receiveLog msg h)
  | .link bound next, 0, msg, hf => by
    exfalso
    cases next <;> simp [LogHandler.size] at hf
  | .link bound next, fuel + 1, msg, hf => by
    rw [receiveLogFuel, receiveLog]
    rcases hh : handleLog bound msg with ⟨ps, r⟩
    cases r with
    | error e => rfl
    | ok b =>
      cases b
      · cases next with
        | none => rfl
        | some nh =>
          have hsz : nh.size ≤ fuel := by
            simp only [LogHandler.size] at hf
            omega
          show (match receiveLogFuel fuel msg nh with
                | none => none
                | some r => some (ps ++ r.1, r.2)) =
              some (ps ++ (receiveLog msg nh).1, (receiveLog msg nh).2)
          rw [receiveLogFuel_eq nh fuel msg hsz]
      · rfl

/-- C9: routing always terminates: delegation walks the strictly
shorter tail of the chain, so a fuel budget equal to the chain's length
is always enough, and the outcome is exactly `receiveLog`'s (a consumed
message, a propagated emit failure, or the unhandled error). -/
theorem receiveLog_terminates (σ : Type) (h : LogHandler) (msg : LogMessage σ)
    (fuel : Nat) (hf : h.size ≤ fuel) :
    receiveLogFuel fuel msg h = some (receiveLog msg h) :=
  receiveLogFuel_eq h fuel msg hf

theorem receiveLog_terminates_witness :
    receiveLogFuel 4 (LogMessage.fatalError : LogMessage SinkId) mainChain =
      some (receiveLog (LogMessage.fatalError : LogMessage SinkId) mainChain) :=
  receiveLog_terminates SinkId mainChain (LogMessage.fatalError : LogMessage SinkId) 4
    (by decide)

/-- Helper: a routing call never touches the chain component of the
state. -/
theorem routeOne_chain_eq (w : World) (m : LogMessage SinkId) :
    (routeOne w m).1.chain = w.chain := rfl

/-- Helper: the outcome of a routing call is the outcome `receiveLog`
computes on the state's chain. -/
theorem routeOne_result_eq (w : World) (m : LogMessage SinkId) :
    (routeOne w m).2 = (receiveLog m w.chain).2 := rfl

/-- Helper: the whole try block never touches the chain component of
the state. -/
theorem routeList_chain_eq : ∀ (msgs : List (LogMessage SinkId)) (w : World),
    (routeList w msgs).1.chain = w.chain
  | [], _ => rfl
  | m :: rest, w => by
    rcases hr : routeOne w m with ⟨w2, r⟩
    have hc : w2.chain = w.chain := by rw [← routeOne_chain_eq w m, hr]
    cases r with
    | error e => simp [routeList, hr, hc]
    | ok u =>
      simp only [routeList, hr]
      rw [routeList_chain_eq rest w2, hc]

/-- C10: routing never modifies the chain: after any single routing
call, and after any sequence of routing calls, the chain (hence every
link's bound severity and successor) is exactly as before. -/
theorem routing_preserves_chain (w : World) (msg : LogMessage SinkId)
    (msgs : List (LogMessage SinkId)) :
    (routeOne w msg).1.chain = w.chain
    ∧ (routeOne w msg).1.chain.bounds = w.chain.bounds
    ∧ (routeList w msgs).1.chain = w.chain :=
  ⟨routeOne_chain_eq w msg, by rw [routeOne_chain_eq], routeList_chain_eq msgs w⟩

/-- Helper: inside the single try block, the first throwing routing call
aborts everything after it: the run equals the run on the prefix ending
at the first failing message, and the caught exception is that
message's. -/
theorem routeList_first_error : ∀ (pre : List (LogMessage SinkId)) (w : World)
    (msg : LogMessage SinkId) (rest : List (LogMessage SinkId)) (e : String),
    (∀ m ∈ pre, (receiveLog m w.chain).2 = .ok ()) →
    (receiveLog msg w.chain).2 = .error e →
    routeList w (pre ++ msg :: rest) = routeList w (pre ++ [msg])
    ∧ (routeList w (pre ++ msg :: rest)).2 = some e
  | [], w, msg, rest, e, _, hmsg => by
    rcases hr : routeOne w msg with ⟨w2, r⟩
    have h2 : r = .error e := by
      have h3 := congrArg Prod.snd hr
      rw [routeOne_result_eq, hmsg] at h3
      exact h3.symm
    subst h2
    simp [routeList, hr]
  | m :: pre, w, msg, rest, e, hpre, hmsg => by
    rcases hr : routeOne w m with ⟨w2, r⟩
    have hc : w2.chain = w.chain := by rw [← routeOne_chain_eq w m, hr]
    have hok : r = .ok () := by
      have h3 := congrArg Prod.snd hr
      rw [routeOne_result_eq, hpre m (List.mem_cons_self m pre)] at h3
      exact h3.symm
    subst hok
    have ih := routeList_first_error pre w2 msg rest e
      (fun m2 hm2 => by rw [hc]; exact hpre m2 (List.mem_cons_of_mem m hm2))
      (by rw [hc]; exact hmsg)
    simpa [routeList, hr] using ih

/-- C3 (amended): the driver catches the first failure propagated out of
the chain, prints its descriptive text to standard output, and exits
with code 0 — but, because all routing calls sit inside one try block,
the routing calls after the first failing one never run: the run is
exactly the run on the prefix ending at the first failure. -/
theorem driver_catches_first_failure (fileOpenOk : Bool)
    (pre rest : List (LogMessage SinkId)) (msg : LogMessage SinkId) (e : String)
    (hpre : ∀ m ∈ pre, (receiveLog m mainChain).2 = .ok ())
    (hmsg : (receiveLog msg mainChain).2 = .error e) :
    runDriver fileOpenOk (pre ++ msg :: rest) = runDriver fileOpenOk (pre ++ [msg])
    ∧ (runDriver fileOpenOk (pre ++ msg :: rest)).driverOut = [e]
    ∧ (runDriver fileOpenOk (pre ++ msg :: rest)).exitCode = 0 := by
  have h := routeList_first_error pre ⟨mainChain, fileOpenOk, [], []⟩ msg rest e hpre hmsg
  refine ⟨?_, ?_, rfl⟩
  · simp only [runDriver, h.1]
  · simp only [runDriver, h.2]

theorem driver_catches_first_failure_witness :
    runDriver true
        ([LogMessage.warning SinkId.console, LogMessage.error SinkId.file] ++
          LogMessage.unknownMessage :: []) =
      runDriver true
        ([LogMessage.warning SinkId.console, LogMessage.error SinkId.file] ++
          [LogMessage.unknownMessage])
    ∧ (runDriver true
        ([LogMessage.warning SinkId.console, LogMessage.error SinkId.file] ++
          LogMessage.unknownMessage :: [])).driverOut = ["UnknownMessage!"]
    ∧ (runDriver true
        ([LogMessage.warning SinkId.console, LogMessage.error SinkId.file] ++
          LogMessage.unknownMessage :: [])).exitCode = 0 :=
  driver_catches_first_failure true
    [LogMessage.warning SinkId.console, LogMessage.error SinkId.file] []
    LogMessage.unknownMessage "UnknownMessage!"
    (by intro m hm; fin_cases hm <;> rfl) rfl

/-- C3 counterexample: in a driver run whose first routing call fails
(messages UnknownMessage then Warning(console)), the failure is caught
and printed, the routing of the Warning message — which on its own
would write "warning" to the console sink — never runs, and the console
sink stays empty: a failure on an earlier routing call does prevent
later routing calls from running. -/
theorem driver_failure_skips_rest_cex :
    (runDriver true [LogMessage.unknownMessage, LogMessage.warning SinkId.console]).driverOut
        = ["UnknownMessage!"]
    ∧ (receiveLog (LogMessage.warning SinkId.console) mainChain).1 =
        [(SinkId.console, "warning")]
    ∧ (runDriver true [LogMessage.unknownMessage,
        LogMessage.warning SinkId.console]).consoleLines ≠ ["warning"]
    ∧ (runDriver true [LogMessage.unknownMessage,
        LogMessage.warning SinkId.console]).consoleLines = [] := by
  refine ⟨rfl, rfl, ?_, rfl⟩
  decide
